import Mathlib

/-!
Verification development for the terminal transport client of the aiTerminal
repository (a ttyd-style browser terminal).  The definitions below are a
shallow embedding of the client in `src/unnamed/part_000` (the `Xterm`
class): its flow controller (`writeData`), connection-close policy
(`onSocketClose`), preference merge and application (`onSocketData` /
`applyPreferences`), mouse-mode override (`setWebMouseMode`), frame codec
(`sendData` / `sendCommand` / `onSocketData`) and renderer selection
(`setRendererType`).  JavaScript numbers that only ever hold integers are
modelled as `Int`/`Nat`; byte arrays as `List Nat`; asynchronous callbacks as
explicit events in a trace.
-/

namespace Ttyd

/-! ## Flow controller (`writeData`, src/unnamed/part_000 lines 237-253) -/

/-- Flow-control thresholds, from the `FlowControl` interface (lines 52-56). -/
structure FlowControl where
  limit : Int
  highWater : Int
  lowWater : Int
deriving DecidableEq

/-- The flow window: the `written` and `pending` fields of the `Xterm` class
(lines 79-80), both initialised to 0. -/
structure FlowState where
  written : Int
  pending : Int
deriving DecidableEq

/-- Commands the flow controller can send on the socket: `Command.PAUSE`
(tag byte 50) and `Command.RESUME` (tag byte 51). -/
inductive FlowCmd where
  | pause
  | resume
deriving DecidableEq

/-- One event of a flow-control trace: a `writeData` call with a chunk of
`len` bytes, or the asynchronous completion callback of an earlier throttled
`terminal.write`. -/
inductive FlowEvent where
  | write (len : Nat)
  | complete
deriving DecidableEq

/-- `writeData` (lines 237-253): `written += data.length`; if `written >
limit`, the chunk is written with a completion callback, `pending`
increments, `written` resets to 0, and a PAUSE is sent when the new
`pending` exceeds `highWater`.  Otherwise the chunk is written plainly. -/
def writeData (fc : FlowControl) (s : FlowState) (len : Nat) :
    FlowState × List FlowCmd :=
  let w := s.written + (len : Int)
  if fc.limit < w then
    let p := s.pending + 1
    (⟨0, p⟩, if fc.highWater < p then [FlowCmd.pause] else [])
  else
    (⟨w, s.pending⟩, [])

/-- The completion callback registered by a throttled `terminal.write`
(lines 243-246): `pending = Math.max(pending - 1, 0)`; if the new `pending`
is below `lowWater`, a RESUME is sent. -/
def writeDataCallback (fc : FlowControl) (s : FlowState) :
    FlowState × List FlowCmd :=
  let p := max (s.pending - 1) 0
  (⟨s.written, p⟩, if p < fc.lowWater then [FlowCmd.resume] else [])

/-- Dispatch one trace event to the code it runs. -/
def flowStep (fc : FlowControl) (s : FlowState) :
    FlowEvent → FlowState × List FlowCmd
  | FlowEvent.write len => writeData fc s len
  | FlowEvent.complete => writeDataCallback fc s

/-- Run a trace, recording after each event the post-state and the commands
that event sent on the socket. -/
def flowSteps (fc : FlowControl) (s : FlowState) :
    List FlowEvent → List (FlowState × List FlowCmd)
  | [] => []
  | e :: es => (flowStep fc s e) :: flowSteps fc (flowStep fc s e).1 es

/-- Final state after running a trace. -/
def flowRun (fc : FlowControl) (s : FlowState) : List FlowEvent → FlowState
  | [] => s
  | e :: es => flowRun fc (flowStep fc s e).1 es

/-- Initial flow window: `written = 0`, `pending = 0` (lines 79-80). -/
def flowInit : FlowState := ⟨0, 0⟩

/-- Concrete flow-control configuration used in witnesses and
counterexamples. -/
def fcW : FlowControl := ⟨100, 10, 4⟩

/-- Concrete trace: one throttled write (101 bytes against `limit = 100`),
then its completion callback. -/
def esW : List FlowEvent := [FlowEvent.write 101, FlowEvent.complete]

/-! ## Connection-close policy (`onSocketClose`, lines 314-327) -/

/-- What `onSocketClose` does after disposing listeners: refresh the auth
token and reconnect (`refreshToken().then(connect)`), close the browser tab
(`window.close()`), or show the persistent press-Enter prompt. -/
inductive CloseAction where
  | refreshTokenThenConnect
  | closeTab
  | awaitManualReconnect
deriving DecidableEq

/-- The branch structure of `onSocketClose` (lines 319-326):
`if (event.code !== 1000 && doReconnect) { refreshToken().then(connect); }
else if (this.closeOnDisconnect) { window.close(); } else { prompt }`. -/
def onSocketClose (code : Nat) (doReconnect closeOnDisconnect : Bool) :
    CloseAction :=
  if code != 1000 && doReconnect then CloseAction.refreshTokenThenConnect
  else if closeOnDisconnect then CloseAction.closeTab
  else CloseAction.awaitManualReconnect

/-! ## Preference merge (`onSocketData`, line 371) -/

/-- JavaScript object spread: `{ ...a, ...b }` — a key present in `b`
overrides the same key of `a`.  Layers are modelled as partial maps from key
to value (`none` = key absent; neither `JSON.parse` output nor the
query-override object can hold a present-but-`undefined` key). -/
def spreadMap {V : Type} (a b : String → Option V) : String → Option V :=
  fun k =>
    match b k with
    | some v => some v
    | none => a k

/-- The merge performed on every SET_PREFERENCES frame (line 371):
`{ ...this.options.clientOptions, ...JSON.parse(...), ...this.parseOptsFromUrlQuery(...) }`,
i.e. defaults, then server-pushed values, then query-string overrides.
Being a pure function of the three layers, the merge is deterministic. -/
def effectivePrefs {V : Type} (defaults server query : String → Option V) :
    String → Option V :=
  spreadMap (spreadMap defaults server) query

/-! ## Mouse-mode override (`setWebMouseMode`, lines 111-124) -/

/-- Escape sequence written to the emulator when enabling web-mouse mode:
DECRST of mouse-reporting modes 1000, 1002, 1003, 1006 (line 115). -/
def mouseDisableSeq : String := "\x1b[?1000l\x1b[?1002l\x1b[?1003l\x1b[?1006l"

/-- Escape sequence written to the emulator when disabling web-mouse mode:
DECSET of the same four modes (line 120). -/
def mouseEnableSeq : String := "\x1b[?1000h\x1b[?1002h\x1b[?1003h\x1b[?1006h"

/-- The terminal emulator's four extended mouse-reporting modes (X10 /
button-event / any-event tracking and SGR extended coordinates), the state
the written escape sequences act on. -/
structure MouseModes where
  x10 : Bool
  buttonEvent : Bool
  anyEvent : Bool
  sgrExt : Bool
deriving DecidableEq

/-- Effect on the emulator (an external collaborator) of writing one of the
two escape-sequence strings this module emits: the DECRST string turns all
four modes off, the DECSET string turns all four on; any other write leaves
them unchanged. -/
def applyMouseSeq (m : MouseModes) (s : String) : MouseModes :=
  if s = mouseDisableSeq then ⟨false, false, false, false⟩
  else if s = mouseEnableSeq then ⟨true, true, true, true⟩
  else m

/-- Observable state of the mouse-mode override: the `webMouseMode` flag plus
the log of strings written into the emulator (`terminal.write`) and of
command frames sent to the remote (`sendCommand`). -/
structure MouseCtl where
  webMouseMode : Bool
  termWrites : List String
  remoteSends : List String
deriving DecidableEq

/-- `setWebMouseMode(enabled)` (lines 111-124).  Enabling sets the flag and
writes the disable sequence into the emulator.  Disabling clears the flag,
writes the enable sequence, and sends command `'4'` (refresh pane listing)
to the remote.  Neither branch inspects the previous flag value. -/
def setWebMouseMode (st : MouseCtl) (enabled : Bool) : MouseCtl :=
  if enabled then
    { st with
      webMouseMode := true
      termWrites := st.termWrites ++ [mouseDisableSeq] }
  else
    { st with
      webMouseMode := false
      termWrites := st.termWrites ++ [mouseEnableSeq]
      remoteSends := st.remoteSends ++ ["4"] }

/-- Initial override state: flag false (line 101), nothing written or sent. -/
def mouseCtlInit : MouseCtl := ⟨false, [], []⟩

/-- Run a sequence of `setWebMouseMode` calls from the initial state. -/
def runMouseCalls (calls : List Bool) : MouseCtl :=
  calls.foldl setWebMouseMode mouseCtlInit

/-- The emulator's mouse modes after replaying all writes the override
produced, starting from an arbitrary initial mode state. -/
def effectiveMouseModes (init : MouseModes) (st : MouseCtl) : MouseModes :=
  st.termWrites.foldl applyMouseSeq init

/-! ## Preference application (`applyPreferences`, lines 377-402) -/

/-- JavaScript values as they occur in a preferences object. -/
inductive JsVal where
  | vBool (b : Bool)
  | vNum (n : Int)
  | vStr (s : String)
  | vNull
  | vUndef
deriving DecidableEq

/-- JavaScript truthiness of a preference value (`if (value)`): false for
`false`, `0`, the empty string, `null` and `undefined`. -/
def truthy : JsVal → Bool
  | JsVal.vBool b => b
  | JsVal.vNum n => n != 0
  | JsVal.vStr s => s != ""
  | JsVal.vNull => false
  | JsVal.vUndef => false

/-- JavaScript loose equality `value == 11` (line 394): true for the number
11 and for the string "11" (which coerces to 11). -/
def looseEq11 : JsVal → Bool
  | JsVal.vNum n => n == 11
  | JsVal.vStr s => s == "11"
  | _ => false

/-- Observable actions performed by `applyPreferences` handlers. -/
inductive PrefEffect where
  | setRenderer (v : JsVal)
  | removeUnloadAlert
  | loadImageAddon
  | loadUnicode11Addon
  | loadZmodemAddon
  | setDocTitle (v : JsVal)
  | setTermOption (k : String) (v : JsVal)
  | refit
deriving DecidableEq

/-- Mutable fields of the `Xterm` instance touched by `applyPreferences`,
plus a log of the keys dispatched and of the handler effects. -/
structure PrefState where
  resizeOverlay : Bool
  reconnect : Bool
  doReconnect : Bool
  closeOnDisconnect : Bool
  titleFixed : Option JsVal
  dispatched : List String
  effects : List PrefEffect
deriving DecidableEq

/-- Append one handler effect. -/
def addEff (st : PrefState) (e : PrefEffect) : PrefState :=
  { st with effects := st.effects ++ [e] }

/-- Instance-field values at construction (lines 96-99): `resizeOverlay`,
`reconnect`, `doReconnect` true, `closeOnDisconnect` false, no pinned
title. -/
def prefStateInit : PrefState := ⟨true, true, true, false, none, [], []⟩

/-- The `for (const [key, value] of Object.entries(prefs))` loop of
`applyPreferences` (lines 385-401), transcribed case by case.  Note the
`titleFixed` case (line 393): `if (!value) return;` — a falsy value exits
the whole method, not just this case, so the remaining keys are never
inspected. -/
def applyPreferencesLoop (st : PrefState) :
    List (String × JsVal) → PrefState
  | [] => st
  | (k, v) :: rest =>
    let st1 := { st with dispatched := st.dispatched ++ [k] }
    if k = "rendererType" then
      applyPreferencesLoop (addEff st1 (PrefEffect.setRenderer v)) rest
    else if k = "disableLeaveAlert" then
      applyPreferencesLoop
        (if truthy v then addEff st1 PrefEffect.removeUnloadAlert else st1) rest
    else if k = "disableResizeOverlay" then
      applyPreferencesLoop
        (if truthy v then { st1 with resizeOverlay := false } else st1) rest
    else if k = "disableReconnect" then
      applyPreferencesLoop
        (if truthy v then { st1 with reconnect := false, doReconnect := false }
         else st1) rest
    else if k = "enableSixel" then
      applyPreferencesLoop
        (if truthy v then addEff st1 PrefEffect.loadImageAddon else st1) rest
    else if k = "closeOnDisconnect" then
      applyPreferencesLoop
        (if truthy v then
          { st1 with closeOnDisconnect := true, reconnect := false,
                     doReconnect := false }
         else st1) rest
    else if k = "titleFixed" then
      if truthy v then
        applyPreferencesLoop
          (addEff { st1 with titleFixed := some v } (PrefEffect.setDocTitle v))
          rest
      else st1
    else if k = "unicodeVersion" then
      applyPreferencesLoop
        (if looseEq11 v then addEff st1 PrefEffect.loadUnicode11Addon else st1)
        rest
    else
      let st2 := addEff st1 (PrefEffect.setTermOption k v)
      applyPreferencesLoop
        (if k.startsWith "font" then addEff st2 PrefEffect.refit else st2) rest

/-- `applyPreferences` (lines 377-402): first the zmodem/trzsz capability
module is loaded when either flag in the prefs object is truthy (lines
380-384), then every entry is dispatched through the switch.  The prefs
object is modelled as an association list in enumeration order. -/
def applyPreferences (prefs : List (String × JsVal)) : PrefState :=
  let st0 := prefStateInit
  let st0 :=
    if truthy ((prefs.lookup "enableZmodem").getD JsVal.vUndef)
        || truthy ((prefs.lookup "enableTrzsz").getD JsVal.vUndef) then
      addEff st0 PrefEffect.loadZmodemAddon
    else st0
  applyPreferencesLoop st0 prefs

/-- Specification-side characterisation of which keys the loop dispatches:
every key in enumeration order up to and including the first `titleFixed`
entry with a falsy value, which aborts the loop. -/
def specProcessed : List (String × JsVal) → List String
  | [] => []
  | (k, v) :: rest =>
    k :: (if k = "titleFixed" ∧ truthy v = false then [] else specProcessed rest)

/-! ## Codec: UTF-8, frame encoding (`sendData` 255-270, `sendCommand`
272-286, `initListeners` resize 228-232, `onSocketData` 347-375) -/

/-- Number of UTF-16 code units a character occupies — JavaScript's
`string.length` counts these. -/
def utf16LenChar (c : Char) : Nat :=
  if c.toNat < 0x10000 then 1 else 2

/-- JavaScript `string.length` of a character list. -/
def utf16Length : List Char → Nat
  | [] => 0
  | c :: cs => utf16LenChar c + utf16Length cs

/-- UTF-8 encoding of one character (what `TextEncoder` produces per code
point). -/
def utf8EncodeChar (c : Char) : List Nat :=
  let n := c.toNat
  if n < 0x80 then [n]
  else if n < 0x800 then [0xC0 + n / 0x40, 0x80 + n % 0x40]
  else if n < 0x10000 then
    [0xE0 + n / 0x1000, 0x80 + (n / 0x40) % 0x40, 0x80 + n % 0x40]
  else
    [0xF0 + n / 0x40000, 0x80 + (n / 0x1000) % 0x40, 0x80 + (n / 0x40) % 0x40,
     0x80 + n % 0x40]

/-- UTF-8 encoding of a character list (`TextEncoder.encode`). -/
def utf8EncodeL : List Char → List Nat
  | [] => []
  | c :: cs => utf8EncodeChar c ++ utf8EncodeL cs

/-- `TextEncoder.encodeInto` against a destination of `cap` bytes: encodes
the longest prefix of whole characters whose UTF-8 fits, and reports exactly
the bytes written (characters are never split). -/
def encodeIntoGreedy : List Char → Nat → List Nat
  | [], _ => []
  | c :: cs, cap =>
    let b := utf8EncodeChar c
    if b.length ≤ cap then b ++ encodeIntoGreedy cs (cap - b.length) else []

/-- The frame `sendData` builds for a string payload (lines 259-263): a
buffer of `data.length * 3 + 1` bytes, tag byte `Command.INPUT.charCodeAt(0)
= 48`, `encodeInto` of the payload after the tag, and
`subarray(0, written + 1)` — i.e. the tag followed by exactly the bytes
written.  (The method first returns without sending when the socket is not
open; the frame below is what is sent on the open path.) -/
def sendData (s : String) : List Nat :=
  48 :: encodeIntoGreedy s.data (3 * utf16Length s.data)

/-- The frame `sendData` builds for a binary payload (lines 264-269): the
tag byte followed by the bytes verbatim. -/
def sendDataBinary (data : List Nat) : List Nat :=
  48 :: data

/-- The frame `sendCommand` builds (lines 272-286).  JavaScript `if (data)`
is false for an absent argument and for the empty string, so both are the
one-byte frame.  Otherwise the buffer is `data.length + 1` bytes — only the
UTF-16 length, not the UTF-8 length — `encodeInto` fills what fits after the
tag, and the whole buffer is sent, so an over-long payload is cut at a
character boundary and the unused bytes stay zero.  `Uint8Array` stores
`cmd.charCodeAt(0)` modulo 256. -/
def sendCommand (cmd : Char) (data : String) : List Nat :=
  if data = "" then [cmd.toNat % 256]
  else
    let cap := utf16Length data.data
    let w := encodeIntoGreedy data.data cap
    (cmd.toNat % 256) :: (w ++ List.replicate (cap - w.length) 0)

/-- `JSON.stringify({ columns: cols, rows: rows })` for the integers the
resize handler passes (line 229). -/
def resizeJson (cols rows : Nat) : String :=
  "\x7b\"columns\":" ++ toString cols ++ ",\"rows\":" ++ toString rows ++ "\x7d"

/-- The RESIZE frame built in `initListeners` (lines 228-231):
`textEncoder.encode(Command.RESIZE_TERMINAL + msg)` with
`Command.RESIZE_TERMINAL = '1'`. -/
def resizeFrame (cols rows : Nat) : List Nat :=
  utf8EncodeL ("1" ++ resizeJson cols rows).data

/-- The command tag `onSocketData` extracts from a frame (line 350):
`String.fromCharCode(new Uint8Array(rawData)[0])`.  Indexing an empty buffer
yields `undefined`, and `String.fromCharCode(undefined)` is the NUL
character, so an empty frame decodes to tag `'\x00'`. -/
def decodeFrameTag (frame : List Nat) : Char :=
  Char.ofNat (frame.headD 0)

/-- Whether a byte is a UTF-8 continuation byte. -/
def isCont (b : Nat) : Bool := 0x80 ≤ b && b < 0xC0

/-- Strict UTF-8 decoder (fuel-indexed; the fuel is the input length, which
bounds the number of decoded characters). -/
def utf8DecodeAux : Nat → List Nat → Option (List Char)
  | _, [] => some []
  | 0, _ :: _ => none
  | fuel + 1, b :: rest =>
    if b < 0x80 then
      match utf8DecodeAux fuel rest with
      | some cs => some (Char.ofNat b :: cs)
      | none => none
    else if b < 0xC2 then none
    else if b < 0xE0 then
      match rest with
      | b2 :: r =>
        if isCont b2 then
          match utf8DecodeAux fuel r with
          | some cs => some (Char.ofNat ((b - 0xC0) * 0x40 + (b2 - 0x80)) :: cs)
          | none => none
        else none
      | [] => none
    else if b < 0xF0 then
      match rest with
      | b2 :: b3 :: r =>
        if isCont b2 && isCont b3 then
          let cp := (b - 0xE0) * 0x1000 + (b2 - 0x80) * 0x40 + (b3 - 0x80)
          if 0x800 ≤ cp && !(0xD800 ≤ cp && cp ≤ 0xDFFF) then
            match utf8DecodeAux fuel r with
            | some cs => some (Char.ofNat cp :: cs)
            | none => none
          else none
        else none
      | _ => none
    else if b < 0xF5 then
      match rest with
      | b2 :: b3 :: b4 :: r =>
        if isCont b2 && isCont b3 && isCont b4 then
          let cp := (b - 0xF0) * 0x40000 + (b2 - 0x80) * 0x1000
            + (b3 - 0x80) * 0x40 + (b4 - 0x80)
          if 0x10000 ≤ cp && cp ≤ 0x10FFFF then
            match utf8DecodeAux fuel r with
            | some cs => some (Char.ofNat cp :: cs)
            | none => none
          else none
        else none
      | _ => none
    else none

/-- `TextDecoder.decode` on the byte sequences the claims exercise (all
valid UTF-8).  On invalid input the real decoder substitutes U+FFFD; no
claim depends on that path, so it is collapsed to the empty string here. -/
def utf8DecodeStr (bs : List Nat) : String :=
  match utf8DecodeAux bs.length bs with
  | some cs => String.mk cs
  | none => ""

/-- Whether `needle` is an initial segment of `hay`. -/
def startsWithL : List Char → List Char → Bool
  | [], _ => true
  | _ :: _, [] => false
  | n :: ns, h :: hs => n == h && startsWithL ns hs

/-- JavaScript `hay.includes(needle)` on character lists. -/
def hasSubstrL (needle : List Char) : List Char → Bool
  | [] => startsWithL needle []
  | h :: hs => startsWithL needle (h :: hs) || hasSubstrL needle hs

/-- JavaScript `hay.includes(needle)` on strings. -/
def includesStr (hay needle : String) : Bool :=
  hasSubstrL needle.data hay.data

/-- The four mouse-enable sequences blocked while web-mouse mode is on
(lines 358-359). -/
def mouseEnableSeqs : List String :=
  ["\x1b[?1000h", "\x1b[?1002h", "\x1b[?1003h", "\x1b[?1006h"]

/-- Context `onSocketData` reads: the `webMouseMode` flag and the optional
`serverDataCb` callback (returning true when it consumes the data). -/
structure SockCtx where
  webMouseMode : Bool
  serverDataCb : Option (String → Bool)

/-- Observable effects of `onSocketData`: forwarding output bytes to
`writeFunc`, setting the window title, invoking `applyPreferences` on the
decoded JSON, or logging a blocked mouse-enable sequence.  The source
handler performs no other action on any path — in particular it contains no
error signalling of any kind. -/
inductive SockEffect where
  | termWrite (bytes : List Nat)
  | setTitle (s : String)
  | applyPrefsJson (s : String)
  | blockedMouseEnable

/-- `onSocketData` (lines 347-375): extract the tag byte, slice off the
payload, and switch on `OUTPUT = '0'` (48), `SET_WINDOW_TITLE = '1'` (49),
`SET_PREFERENCES = '2'` (50); any other tag falls through `default: break`
with no action. -/
def onSocketData (ctx : SockCtx) (frame : List Nat) : List SockEffect :=
  let cmdCode := frame.headD 0
  let data := frame.tail
  if cmdCode == 48 then
    let decoded := utf8DecodeStr data
    if ctx.webMouseMode && mouseEnableSeqs.any (fun q => includesStr decoded q) then
      [SockEffect.blockedMouseEnable]
    else
      match ctx.serverDataCb with
      | some cb => if cb decoded then [] else [SockEffect.termWrite data]
      | none => [SockEffect.termWrite data]
  else if cmdCode == 49 then [SockEffect.setTitle (utf8DecodeStr data)]
  else if cmdCode == 50 then [SockEffect.applyPrefsJson (utf8DecodeStr data)]
  else []

/-- Formalisation of the claim's words "signals a malformed-frame error":
the handler produces at least one observable effect (any error report —
write, log, callback — would be an effect; `SockEffect` exhausts the
handler's observable behaviour). -/
def signalsMalformedError (effs : List SockEffect) : Prop := effs ≠ []

/-- Concrete context for counterexamples: web-mouse mode off, no server-data
callback. -/
def sockCtx0 : SockCtx := ⟨false, none⟩

/-- Modelled from the spec: the server-side parse of the RESIZE payload,
which is not part of this repository (the server consumes the frame).  Spec
4.1 and 6 define the payload as the JSON object
`\x7b"columns":N,"rows":N\x7d`; this parser accepts exactly the shape the
client emits and returns the two integers. -/
def parseResizeJson (s : String) : Option (Nat × Nat) :=
  let digits := fun l : List Char => l.takeWhile (fun c => c.isDigit)
  let afterDigits := fun l : List Char => l.dropWhile (fun c => c.isDigit)
  let toNatL := fun l : List Char => l.foldl (fun a c => a * 10 + (c.toNat - 48)) 0
  match stripPre "\x7b\"columns\":".data s.data with
  | none => none
  | some r1 =>
    let ds1 := digits r1
    if ds1 = [] then none
    else
      match stripPre ",\"rows\":".data (afterDigits r1) with
      | none => none
      | some r3 =>
        let ds2 := digits r3
        if ds2 = [] then none
        else if afterDigits r3 = "\x7d".data then
          some (toNatL ds1, toNatL ds2)
        else none
where
  /-- Drop an expected initial segment, failing when it does not match. -/
  stripPre : List Char → List Char → Option (List Char)
    | [], l => some l
    | _ :: _, [] => none
    | p :: ps, c :: cs => if c = p then stripPre ps cs else none

/-! ## Renderer selection (`setRendererType`, lines 404-417) -/

/-- The `RendererType` union (line 36). -/
inductive RendererType where
  | dom
  | canvas
  | webgl
deriving DecidableEq

/-- Which addon references the instance holds: `canvasAddon` and
`webglAddon` (`true` = the field holds an addon, `false` = `undefined`). -/
structure RState where
  canvas : Bool
  webgl : Bool
deriving DecidableEq

/-- Events logged while switching renderer: disposal of an addon and the
outcome of each `terminal.loadAddon` attempt. -/
inductive REv where
  | disposedCanvas
  | disposedWebgl
  | canvasLoadOk
  | canvasLoadFail
  | webglLoadOk
  | webglLoadFail
deriving DecidableEq

/-- Environment oracle: whether loading each addon into the terminal throws
(WebGL instantiation failure surfaces inside `terminal.loadAddon`, which the
source wraps in `try`/`catch`). -/
structure LoadOracle where
  webglLoadFails : Bool
  canvasLoadFails : Bool
deriving DecidableEq

/-- `disposeCanvas` (line 407): dispose the canvas addon when present (the
`try`/`catch` around `dispose` swallows its errors) and clear the field. -/
def disposeCanvasF (s : RState) : RState × List REv :=
  (⟨false, s.webgl⟩, if s.canvas then [REv.disposedCanvas] else [])

/-- `disposeWebgl` (line 408): likewise for the WebGL addon. -/
def disposeWebglF (s : RState) : RState × List REv :=
  (⟨s.canvas, false⟩, if s.webgl then [REv.disposedWebgl] else [])

/-- `enableCanvas` (line 409): no-op when a canvas addon already exists;
otherwise create it, dispose WebGL, and try to load it — on failure dispose
the canvas addon again. -/
def enableCanvasF (o : LoadOracle) (s : RState) : RState × List REv :=
  if s.canvas then (s, [])
  else
    let s1 : RState := ⟨true, s.webgl⟩
    let d := disposeWebglF s1
    if o.canvasLoadFails then
      let d2 := disposeCanvasF d.1
      (d2.1, d.2 ++ [REv.canvasLoadFail] ++ d2.2)
    else (d.1, d.2 ++ [REv.canvasLoadOk])

/-- `enableWebgl` (line 410): no-op when a WebGL addon already exists;
otherwise create it, dispose Canvas, and try to register the context-loss
handler and load it — the `catch` disposes the WebGL addon and falls back to
`enableCanvas`. -/
def enableWebglF (o : LoadOracle) (s : RState) : RState × List REv :=
  if s.webgl then (s, [])
  else
    let s1 : RState := ⟨s.canvas, true⟩
    let d := disposeCanvasF s1
    if o.webglLoadFails then
      let d2 := disposeWebglF d.1
      let c := enableCanvasF o d2.1
      (c.1, d.2 ++ [REv.webglLoadFail] ++ d2.2 ++ c.2)
    else (d.1, d.2 ++ [REv.webglLoadOk])

/-- `setRendererType` (lines 404-417): the switch over the requested
backend.  Every failure path above is inside a `try`/`catch`, which is why
this function is total — no exception reaches the caller. -/
def setRendererType (o : LoadOracle) (s : RState) :
    RendererType → RState × List REv
  | RendererType.canvas => enableCanvasF o s
  | RendererType.webgl => enableWebglF o s
  | RendererType.dom =>
    let d := disposeWebglF s
    let d2 := disposeCanvasF d.1
    (d2.1, d.2 ++ d2.2)

/-- Defaults layer used by the C3 witness. -/
def mergeDefaultsW : String → Option Nat :=
  fun k => if k = "a" ∨ k = "b" ∨ k = "c" then some 1 else none

/-- Server layer used by the C3 witness. -/
def mergeServerW : String → Option Nat :=
  fun k => if k = "a" ∨ k = "b" then some 2 else none

/-- Query layer used by the C3 witness. -/
def mergeQueryW : String → Option Nat :=
  fun k => if k = "a" then some 3 else none

/-! ## Theorems -/

/-- Length of the step list equals the length of the trace. -/
theorem flowSteps_length (fc : FlowControl) (s : FlowState)
    (es : List FlowEvent) : (flowSteps fc s es).length = es.length := by
  induction es generalizing s with
  | nil => rfl
  | cons e es ih => simp [flowSteps, ih]

/-- Helper: over any trace from any start state, a step emits RESUME exactly
when it is a completion callback whose post-decrement `pending` is below
`lowWater`. -/
theorem flow_resume_aux (fc : FlowControl) (es : List FlowEvent) :
    ∀ (s : FlowState) (i : Nat) (h1 : i < (flowSteps fc s es).length)
      (h2 : i < es.length),
      (FlowCmd.resume ∈ ((flowSteps fc s es).get ⟨i, h1⟩).2 ↔
        (es.get ⟨i, h2⟩ = FlowEvent.complete ∧
          ((flowSteps fc s es).get ⟨i, h1⟩).1.pending < fc.lowWater)) := by
  induction es with
  | nil => intro s i h1 h2; exact absurd h2 (by simp)
  | cons e es ih =>
    intro s i h1 h2
    cases i with
    | zero =>
      simp only [flowSteps, List.get]
      cases e with
      | write len =>
        simp only [flowStep, writeData]
        split_ifs <;> simp
      | complete =>
        simp only [flowStep, writeDataCallback]
        split_ifs with h <;> simp [h]
    | succ i =>
      simp only [flowSteps, List.get]
      exact ih (flowStep fc s e).1 i _ (Nat.lt_of_succ_lt_succ h2)

/-- C1 (corrected): over every sequence of `writeData` calls and
write-completion callbacks, a RESUME is sent at a step if and only if that
step is a completion callback whose post-decrement `pending` is below
`lowWater` — including completions where `pending` was already below
`lowWater` before the decrement; `writeData` calls never send RESUME. -/
theorem flow_resume_iff_post_pending_below_low_water (fc : FlowControl)
    (es : List FlowEvent) (i : Nat)
    (h1 : i < (flowSteps fc flowInit es).length) (h2 : i < es.length) :
    FlowCmd.resume ∈ ((flowSteps fc flowInit es).get ⟨i, h1⟩).2 ↔
      (es.get ⟨i, h2⟩ = FlowEvent.complete ∧
        ((flowSteps fc flowInit es).get ⟨i, h1⟩).1.pending < fc.lowWater) :=
  flow_resume_aux fc es flowInit i h1 h2

/-- Witness for C1's amended theorem at the concrete trace `esW`: its second
step (the completion callback) does send a RESUME. -/
theorem flow_resume_iff_witness :
    FlowCmd.resume ∈
      ((flowSteps fcW flowInit esW).get
        ⟨1, (by decide : 1 < (flowSteps fcW flowInit esW).length)⟩).2 :=
  (flow_resume_iff_post_pending_below_low_water fcW esW 1 (by decide)
    (by decide)).mpr (by decide)

/-- C1 counterexample: with `lowWater = 4`, the trace `esW` (one throttled
write, then its completion) produces the steps below — the completion step
starts from `pending = 1 < lowWater`, i.e. `pending` does NOT transition
from `≥ lowWater` to `< lowWater`, yet a RESUME is sent.  This refutes the
"only if" direction of the claim as stated. -/
theorem flow_resume_below_low_water_cex :
    flowSteps fcW flowInit esW =
      [(⟨0, 1⟩, []), (⟨0, 0⟩, [FlowCmd.resume])] ∧ fcW.lowWater = 4 := by
  decide

/-- Helper: one flow step preserves nonnegativity of both counters. -/
theorem flowStep_nonneg (fc : FlowControl) (s : FlowState) (e : FlowEvent)
    (h1 : 0 ≤ s.written) (h2 : 0 ≤ s.pending) :
    0 ≤ (flowStep fc s e).1.written ∧ 0 ≤ (flowStep fc s e).1.pending := by
  cases e with
  | write len =>
    simp only [flowStep, writeData]
    split_ifs <;> refine ⟨?_, ?_⟩ <;> simp <;> omega
  | complete =>
    simp only [flowStep, writeDataCallback]
    refine ⟨h1, le_max_right _ _⟩

/-- Helper: the flow counters stay nonnegative along any trace from any
state with nonnegative counters. -/
theorem flow_nonneg_aux (fc : FlowControl) (es : List FlowEvent) :
    ∀ s : FlowState, 0 ≤ s.written → 0 ≤ s.pending →
      0 ≤ (flowRun fc s es).written ∧ 0 ≤ (flowRun fc s es).pending := by
  induction es with
  | nil => intro s h1 h2; exact ⟨h1, h2⟩
  | cons e es ih =>
    intro s h1 h2
    have h := flowStep_nonneg fc s e h1 h2
    simp only [flowRun]
    exact ih _ h.1 h.2

/-- C10 (confirmed): for every sequence of `writeData` calls and
write-completion callbacks from the initial flow window, `written ≥ 0` and
`pending ≥ 0` hold at all times, and every throttled (callback-bearing)
delivery resets `written` to zero. -/
theorem flow_window_counters_nonnegative :
    (∀ (fc : FlowControl) (es : List FlowEvent),
      0 ≤ (flowRun fc flowInit es).written ∧
        0 ≤ (flowRun fc flowInit es).pending) ∧
    (∀ (fc : FlowControl) (s : FlowState) (len : Nat),
      fc.limit < s.written + (len : Int) →
        (writeData fc s len).1.written = 0) := by
  constructor
  · intro fc es
    exact flow_nonneg_aux fc es flowInit le_rfl le_rfl
  · intro fc s len h
    simp [writeData, if_pos h]

/-- Witness for C10: a concrete throttled delivery (101 bytes against
`limit = 100`) resets `written` to zero. -/
theorem flow_window_counters_nonnegative_witness :
    (writeData fcW ⟨0, 0⟩ 101).1.written = 0 :=
  flow_window_counters_nonnegative.2 fcW ⟨0, 0⟩ 101 (by decide)

/-- C2 (confirmed): on socket close with code ≠ 1000 while reconnect is
allowed, the client refreshes the auth token and reconnects; on close with
code 1000 no reconnect attempt is made — the tab is closed when
`closeOnDisconnect` is set, otherwise the manual-reconnect prompt state is
entered. -/
theorem socket_close_reconnect_policy (code : Nat)
    (doReconnect closeOnDisconnect : Bool) :
    (code ≠ 1000 → doReconnect = true →
      onSocketClose code doReconnect closeOnDisconnect =
        CloseAction.refreshTokenThenConnect) ∧
    (code = 1000 →
      onSocketClose code doReconnect closeOnDisconnect =
        (if closeOnDisconnect then CloseAction.closeTab
         else CloseAction.awaitManualReconnect)) := by
  constructor
  · intro h hd
    simp [onSocketClose, hd, bne_iff_ne, h]
  · intro h
    subst h
    simp [onSocketClose]

/-- Witness for C2 at concrete close codes: 1006 with reconnect allowed
reconnects; 1000 prompts, or closes the tab when `closeOnDisconnect`. -/
theorem socket_close_reconnect_policy_witness :
    onSocketClose 1006 true false = CloseAction.refreshTokenThenConnect ∧
    onSocketClose 1000 true false = CloseAction.awaitManualReconnect ∧
    onSocketClose 1000 true true = CloseAction.closeTab := by
  refine ⟨(socket_close_reconnect_policy 1006 true false).1 (by decide) rfl,
    ?_, ?_⟩
  · have h := (socket_close_reconnect_policy 1000 true false).2 rfl
    simpa using h
  · have h := (socket_close_reconnect_policy 1000 true true).2 rfl
    simpa using h

/-- C3 (confirmed): the effective-preferences merge is deterministic (its
value at a key depends only on the three layers' values at that key), a key
present in the query layer wins over both the server layer and the defaults,
and a key present in the server layer wins over the defaults. -/
theorem preference_merge_precedence {V : Type}
    (d s q d2 s2 q2 : String → Option V) (k : String) :
    (∀ v, q k = some v → effectivePrefs d s q k = some v) ∧
    (q k = none → ∀ v, s k = some v → effectivePrefs d s q k = some v) ∧
    (q k = none → s k = none → effectivePrefs d s q k = d k) ∧
    (d k = d2 k → s k = s2 k → q k = q2 k →
      effectivePrefs d s q k = effectivePrefs d2 s2 q2 k) := by
  refine ⟨?_, ?_, ?_, ?_⟩
  · intro v hq
    simp [effectivePrefs, spreadMap, hq]
  · intro hq v hs
    simp [effectivePrefs, spreadMap, hq, hs]
  · intro hq hs
    simp [effectivePrefs, spreadMap, hq, hs]
  · intro hd hs hq
    simp [effectivePrefs, spreadMap, hd, hs, hq]

/-- Witness for C3 on concrete layers: the query value wins at "a", the
server value at "b", and the default survives at "c". -/
theorem preference_merge_precedence_witness :
    effectivePrefs mergeDefaultsW mergeServerW mergeQueryW "a" = some 3 ∧
    effectivePrefs mergeDefaultsW mergeServerW mergeQueryW "b" = some 2 ∧
    effectivePrefs mergeDefaultsW mergeServerW mergeQueryW "c" = some 1 := by
  refine ⟨(preference_merge_precedence mergeDefaultsW mergeServerW mergeQueryW
      mergeDefaultsW mergeServerW mergeQueryW "a").1 3 (by decide), ?_, ?_⟩
  · exact (preference_merge_precedence mergeDefaultsW mergeServerW mergeQueryW
      mergeDefaultsW mergeServerW mergeQueryW "b").2.1 (by decide) 2 (by decide)
  · exact ((preference_merge_precedence mergeDefaultsW mergeServerW mergeQueryW
      mergeDefaultsW mergeServerW mergeQueryW "c").2.2.1 (by decide)
      (by decide)).trans (by decide)

/-- C4 (corrected): enabling web-mouse mode twice yields the same effective
state — same flag and same emulator mouse-report modes (all four disabled)
from any initial mode state — as enabling it once.  But disabling with no
preceding enable is NOT a no-op: exactly as a disable after an enable would,
it writes the four mouse-enable sequences into the emulator and sends the
refresh command `'4'` to the remote. -/
theorem web_mouse_mode_effective_state (init : MouseModes) :
    (runMouseCalls [true, true]).webMouseMode =
      (runMouseCalls [true]).webMouseMode ∧
    effectiveMouseModes init (runMouseCalls [true, true]) =
      effectiveMouseModes init (runMouseCalls [true]) ∧
    (runMouseCalls [false]).termWrites = [mouseEnableSeq] ∧
    (runMouseCalls [false]).remoteSends = ["4"] := by
  refine ⟨rfl, ?_, rfl, rfl⟩
  simp [runMouseCalls, effectiveMouseModes, setWebMouseMode, mouseCtlInit,
    applyMouseSeq]

/-- C4 counterexample: calling `setWebMouseMode(false)` with no preceding
enable writes the mouse-enable escape sequence into the emulator and sends
command `'4'` to the remote — it is not a no-op with respect to emitted
escape sequences, refuting the second half of the claim as stated. -/
theorem web_mouse_disable_not_noop_cex :
    (runMouseCalls [false]).termWrites ≠ [] ∧
    (runMouseCalls [false]).remoteSends ≠ [] ∧
    runMouseCalls [false] = ⟨false, [mouseEnableSeq], ["4"]⟩ := by
  refine ⟨?_, ?_, rfl⟩ <;> simp [runMouseCalls, setWebMouseMode, mouseCtlInit]

set_option maxHeartbeats 1600000 in
/-- Helper: the loop dispatches exactly the keys `specProcessed` lists,
appended to whatever was already logged. -/
theorem applyPreferencesLoop_dispatched (l : List (String × JsVal)) :
    ∀ st : PrefState,
      (applyPreferencesLoop st l).dispatched =
        st.dispatched ++ specProcessed l := by
  induction l with
  | nil => intro st; simp [applyPreferencesLoop, specProcessed]
  | cons kv rest ih =>
    intro st
    obtain ⟨k, v⟩ := kv
    simp only [applyPreferencesLoop, specProcessed]
    split_ifs <;> try simp [ih, addEff, *]
    all_goals simp_all

/-- Helper: when no falsy-valued `titleFixed` entry occurs, `specProcessed`
is the full key list. -/
theorem specProcessed_eq_keys (l : List (String × JsVal))
    (h : ∀ p ∈ l, p.1 = "titleFixed" → truthy p.2 = true) :
    specProcessed l = l.map Prod.fst := by
  induction l with
  | nil => rfl
  | cons kv rest ih =>
    obtain ⟨k, v⟩ := kv
    simp only [specProcessed, List.map]
    have hrest : ∀ p ∈ rest, p.1 = "titleFixed" → truthy p.2 = true :=
      fun p hp => h p (List.mem_cons_of_mem _ hp)
    split_ifs with hc
    · have := h ⟨k, v⟩ (List.mem_cons_self _ _) hc.1
      rw [hc.2] at this
      exact absurd this (by simp)
    · simp [ih hrest]

/-- C5 (corrected): `applyPreferences` inspects and dispatches the keys of
the effective preferences object in enumeration order only up to and
including the first `titleFixed` key holding a falsy value — such a key
aborts the loop and the remaining keys are skipped.  When every `titleFixed`
entry (if any) is truthy, all keys are inspected. -/
theorem apply_preferences_dispatch_upto_falsy_title_fixed
    (prefs : List (String × JsVal)) :
    (applyPreferences prefs).dispatched = specProcessed prefs ∧
    ((∀ p ∈ prefs, p.1 = "titleFixed" → truthy p.2 = true) →
      (applyPreferences prefs).dispatched = prefs.map Prod.fst) := by
  have hd : (applyPreferences prefs).dispatched = specProcessed prefs := by
    unfold applyPreferences
    split_ifs <;> simp [applyPreferencesLoop_dispatched, prefStateInit, addEff]
  exact ⟨hd, fun h => hd.trans (specProcessed_eq_keys prefs h)⟩

/-- Witness for C5 on a prefs object without a falsy `titleFixed`: the
single key is dispatched. -/
theorem apply_preferences_dispatch_witness :
    (applyPreferences [("disableResizeOverlay", JsVal.vBool true)]).dispatched
      = ["disableResizeOverlay"] := by
  have h := (apply_preferences_dispatch_upto_falsy_title_fixed
    [("disableResizeOverlay", JsVal.vBool true)]).2 (by decide)
  simpa using h

/-- C5 counterexample: a prefs object whose `titleFixed` key holds the falsy
empty string followed by `disableResizeOverlay: true`.  Only `titleFixed` is
dispatched — the `return` inside its handler aborts the loop — and the
`disableResizeOverlay` handler never runs (`resizeOverlay` stays true),
refuting the claim that every key is inspected for every possible value of
`titleFixed`. -/
theorem apply_preferences_falsy_title_fixed_aborts_cex :
    (applyPreferences
      [("titleFixed", JsVal.vStr ""),
       ("disableResizeOverlay", JsVal.vBool true)]).dispatched =
        ["titleFixed"] ∧
    (applyPreferences
      [("titleFixed", JsVal.vStr ""),
       ("disableResizeOverlay", JsVal.vBool true)]).resizeOverlay = true := by
  decide

/-- C6 (corrected): a zero-length incoming frame is silently dropped — the
command character decodes as NUL (`String.fromCharCode(undefined)`), which
matches no command tag, so the frame falls through the `default` branch: it
is not processed as any command and produces no write to the emulator, no
title change and no preference application; no error is signalled. -/
theorem empty_frame_silently_dropped (ctx : SockCtx) :
    onSocketData ctx [] = [] := rfl

/-- C6 counterexample: decoding the zero-length frame does NOT signal a
malformed-frame error — the handler produces no observable effect at all
(`SockEffect` exhausts its observable behaviour, and the source contains no
error path), refuting the first half of the claim as stated; the
frame-dropped half holds. -/
theorem empty_frame_no_error_signal_cex :
    ¬ signalsMalformedError (onSocketData sockCtx0 []) := fun h => h rfl

/-- C7 (confirmed): decoding an encoded frame reproduces the tag and payload
exactly — for the INPUT tag with payload "ls -la\n" (the decoded tag is
`'0'` and the decoded payload text is the original string), and for the
RESIZE tag with payload `(columns, rows) = (80, 24)` (the decoded tag is
`'1'` and parsing the decoded JSON payload returns the original pair). -/
theorem codec_round_trip_input_and_resize :
    decodeFrameTag (sendData "ls -la\n") = '0' ∧
    utf8DecodeStr (sendData "ls -la\n").tail = "ls -la\n" ∧
    decodeFrameTag (resizeFrame 80 24) = '1' ∧
    parseResizeJson (utf8DecodeStr (resizeFrame 80 24).tail) =
      some (80, 24) := by
  decide

/-- Helper: per character, the UTF-8 length is at most three times the
UTF-16 length (1-3 bytes for BMP code points of one UTF-16 unit, 4 bytes
for astral code points of two units). -/
theorem utf8EncodeChar_length_le (c : Char) :
    (utf8EncodeChar c).length ≤ 3 * utf16LenChar c := by
  simp only [utf8EncodeChar, utf16LenChar]
  split_ifs <;> simp

/-- Helper: the UTF-8 byte length is at most three times the UTF-16 length
(the `data.length * 3` buffer of `sendData` always suffices). -/
theorem utf8_le_three_utf16 (cs : List Char) :
    (utf8EncodeL cs).length ≤ 3 * utf16Length cs := by
  induction cs with
  | nil => simp [utf8EncodeL, utf16Length]
  | cons c cs ih =>
    have h := utf8EncodeChar_length_le c
    simp only [utf8EncodeL, utf16Length, List.length_append]
    omega

/-- Helper: when the whole UTF-8 encoding fits the destination,
`encodeInto` writes it completely. -/
theorem encodeIntoGreedy_complete (cs : List Char) :
    ∀ cap : Nat, (utf8EncodeL cs).length ≤ cap →
      encodeIntoGreedy cs cap = utf8EncodeL cs := by
  induction cs with
  | nil => intro cap h; rfl
  | cons c cs ih =>
    intro cap h
    simp only [utf8EncodeL, List.length_append] at h
    have hc : (utf8EncodeChar c).length ≤ cap := by omega
    simp only [encodeIntoGreedy, utf8EncodeL, if_pos hc]
    rw [ih (cap - (utf8EncodeChar c).length) (by omega)]

/-- Helper: an ASCII character encodes to its own single byte. -/
theorem ascii_utf8EncodeChar (c : Char) (h : c.toNat < 128) :
    utf8EncodeChar c = [c.toNat] := by
  unfold utf8EncodeChar
  rw [if_pos h]

/-- Helper: a pure-ASCII string's UTF-8 is its bytes one-to-one, and its
UTF-8, UTF-16 and character lengths coincide. -/
theorem ascii_utf8EncodeL (cs : List Char) (h : ∀ c ∈ cs, c.toNat < 128) :
    utf8EncodeL cs = cs.map Char.toNat ∧
    (utf8EncodeL cs).length = cs.length ∧ utf16Length cs = cs.length := by
  induction cs with
  | nil => simp [utf8EncodeL, utf16Length]
  | cons c cs ih =>
    have hc : c.toNat < 128 := h c (List.mem_cons_self _ _)
    have hrest := ih fun x hx => h x (List.mem_cons_of_mem _ hx)
    have h16 : utf16LenChar c = 1 := by
      unfold utf16LenChar
      rw [if_pos (by omega)]
    simp [utf8EncodeL, utf16Length, ascii_utf8EncodeChar c hc, hrest.1,
      hrest.2.1, hrest.2.2, h16]
    omega

/-- C8 (corrected): the INPUT path `sendData` always produces the tag byte
followed by the complete UTF-8 encoding of the payload (its
`data.length * 3 + 1` buffer always suffices, so text is never truncated);
the generic command path `sendCommand` produces the tag byte followed by the
complete UTF-8 encoding only when every character of the payload is ASCII —
its buffer is only `data.length + 1` bytes, so non-ASCII payloads are cut at
a character boundary and zero-padded instead. -/
theorem text_frame_utf8_encoding :
    (∀ s : String, sendData s = 48 :: utf8EncodeL s.data) ∧
    (∀ (c : Char) (s : String), (∀ ch ∈ s.data, ch.toNat < 128) →
      sendCommand c s = (c.toNat % 256) :: utf8EncodeL s.data) := by
  constructor
  · intro s
    unfold sendData
    rw [encodeIntoGreedy_complete s.data _ (utf8_le_three_utf16 s.data)]
  · intro c s h
    by_cases hs : s = ""
    · subst hs
      have hnil : ("" : String).data = [] := rfl
      simp [sendCommand, hnil, utf8EncodeL]
    · obtain ⟨henc, hlen, h16⟩ := ascii_utf8EncodeL s.data h
      have hfit : (utf8EncodeL s.data).length ≤ utf16Length s.data := by
        omega
      simp only [sendCommand, if_neg hs]
      rw [encodeIntoGreedy_complete s.data _ hfit, hlen, h16, Nat.sub_self]
      simp

/-- Witness for C8 at a concrete ASCII payload: both paths produce the tag
byte followed by the complete UTF-8 bytes. -/
theorem text_frame_utf8_encoding_witness :
    sendData "ok" = [48, 111, 107] ∧ sendCommand '5' "ok" = [53, 111, 107] := by
  constructor
  · exact (text_frame_utf8_encoding.1 "ok").trans (by decide)
  · exact (text_frame_utf8_encoding.2 '5' "ok" (by decide)).trans (by decide)

/-- C8 counterexample: for the non-ASCII payload "é" (U+00E9, two UTF-8
bytes but one UTF-16 unit), `sendCommand` builds a two-byte buffer in which
the character does not fit after the tag, so the frame sent is the tag byte
followed by a zero byte — not the tag byte followed by the complete UTF-8
encoding `[195, 169]` — refuting the claim for the generic command path. -/
theorem send_command_non_ascii_truncation_cex :
    sendCommand '5' "é" = [53, 0] ∧
    ('5'.toNat % 256) :: utf8EncodeL "é".data = [53, 195, 169] ∧
    sendCommand '5' "é" ≠ ('5'.toNat % 256) :: utf8EncodeL "é".data := by
  decide

/-- C9 (confirmed): when WebGL instantiation always fails (and the Canvas
backend loads), `setRendererType` on a `webgl` request leaves the Canvas
addon active and no WebGL addon retained — the WebGL reference is disposed
(`disposedWebgl` is logged) and the field cleared — and the failure is
caught locally: the function is total by the source's `try`/`catch`
structure, and processing demonstrably continues past the failure to load
Canvas (`canvasLoadOk` follows `webglLoadFail` in the log). -/
theorem webgl_failure_falls_back_to_canvas (o : LoadOracle) (s : RState)
    (h1 : o.webglLoadFails = true) (h2 : o.canvasLoadFails = false)
    (h3 : s.webgl = false) :
    (setRendererType o s RendererType.webgl).1 = ⟨true, false⟩ ∧
    REv.webglLoadFail ∈ (setRendererType o s RendererType.webgl).2 ∧
    REv.disposedWebgl ∈ (setRendererType o s RendererType.webgl).2 ∧
    REv.canvasLoadOk ∈ (setRendererType o s RendererType.webgl).2 := by
  obtain ⟨wf, cf⟩ := o
  obtain ⟨sc, sw⟩ := s
  simp only at h1 h2 h3
  subst h1; subst h2; subst h3
  cases sc <;> decide

/-- Witness for C9 at the concrete always-failing oracle and the initial
(no addon) state: Canvas ends up active with no WebGL addon. -/
theorem webgl_failure_falls_back_to_canvas_witness :
    (setRendererType ⟨true, false⟩ ⟨false, false⟩ RendererType.webgl).1 =
      ⟨true, false⟩ :=
  (webgl_failure_falls_back_to_canvas ⟨true, false⟩ ⟨false, false⟩ rfl rfl
    rfl).1

end Ttyd
